import Mathlib

/-!
# Verification of the pyzgy SeismicReader (src/pyzgy/read.py)

A shallow embedding of `SeismicReader` from `src/pyzgy/read.py`.

Modelling conventions:
* Python floats are modelled as rationals (`Rat`); sample values are `Rat`.
* NumPy arrays are modelled as structures carrying their dimensions, a total
  value function, and an `owned` flag: `owned = false` for a view into a
  cached buffer, `owned = true` after `.copy()`.
* The external collaborators that are not part of the sources — `ZgyLoader`
  (loader.py) and the openzgy `ZgyReader.read` ranged read — are modelled
  from the spec where noted; the volumetric store itself is a total function
  `Nat → Nat → Nat → Rat` (decompressed bricks are dense and may contain
  store-supplied padding near volume edges).
* Python exceptions are modelled by `Except PyErr`.
-/

set_option autoImplicit false

namespace PyZgy

/-- Sample values; Python/NumPy floats modelled as rationals. -/
abbrev Val := Rat

/-- Python exceptions raised by the code paths under study.
`coordinateNotFound` is the explicit
IndexError raised by `coord_to_index` (message: Coordinate not in axis);
`numpyIndexOutOfBounds` is the IndexError NumPy raises for an
out-of-bounds negative index such as reading coords[-2] of a 1-element axis;
`indexErrorTrace index total` is the IndexError raised by `get_trace`
(message names the requested index and the total trace count);
`attributeError` is the AttributeError raised when `gen_trace_header`
evaluates the undefined attribute `self.range_error`. -/
inductive PyErr where
  | coordinateNotFound : PyErr
  | numpyIndexOutOfBounds : PyErr
  | indexErrorTrace (index total : Nat) : PyErr
  | attributeError : PyErr
deriving DecidableEq

instance {ε α : Type} [DecidableEq ε] [DecidableEq α] : DecidableEq (Except ε α) := fun x y =>
  match x, y with
  | .ok a, .ok b => decidable_of_iff (a = b) (by simp)
  | .error e, .error f => decidable_of_iff (e = f) (by simp)
  | .ok _, .error _ => isFalse (by simp)
  | .error _, .ok _ => isFalse (by simp)

/-- First index at which `coord` occurs in the list: the model of
`np.where(coords == coord)[0][0]`, with `none` for the IndexError taken
by the bare `except:` when there is no match. -/
def firstIndexOf {α : Type} [DecidableEq α] (coord : α) : List α → Option Nat
  | [] => none
  | c :: cs => if c = coord then some 0 else (firstIndexOf coord cs).map (· + 1)

/-- Python negative indexing `l[-k]` (for `k ≥ 1`): defined when `k ≤ len`,
otherwise an IndexError (modelled as `none`). -/
def npLastMinus {α : Type} (l : List α) (k : Nat) : Option α :=
  if 1 ≤ k ∧ k ≤ l.length then l.get? (l.length - k) else none

/-- `SeismicReader.coord_to_index` (read.py lines 50-58):
```
try:
    index = np.where(coords == coord)[0][0]
except:
    if include_stop and (coord == coords[-1] + (coords[-1] - coords[-2])):
        return len(coords)
    raise IndexError("Coordinate {} not in axis".format(coord))
return index
```
The `and` short-circuits, so `coords[-1]`/`coords[-2]` are only evaluated
when `include_stop` is true; either access can itself raise a NumPy
out-of-bounds IndexError on an axis that is too short. -/
def coord_to_index {α : Type} [DecidableEq α] [Add α] [Sub α]
    (coord : α) (coords : List α) (include_stop : Bool) : Except PyErr Nat :=
  match firstIndexOf coord coords with
  | some i => .ok i
  | none =>
    if include_stop then
      match npLastMinus coords 1, npLastMinus coords 2 with
      | some last, some prev =>
        if coord = last + (last - prev) then .ok coords.length
        else .error .coordinateNotFound
      | _, _ => .error .numpyIndexOutOfBounds
    else .error .coordinateNotFound

/-- `np.arange(start, start + n*inc, inc)` for `inc ≠ 0` has exactly `n`
elements `start, start+inc, …`; used by `get_haxis` (with integer
annotation start/increment) and for the float sample axis. -/
def arangeN {α : Type} [Ring α] (start inc : α) (n : Nat) : List α :=
  List.ofFn fun i : Fin n => start + (i : α) * inc

/-- The reader's open-time state: `SeismicReader.__init__` constants.
`store` is the decompressed volumetric content served by the external
openzgy store / ZgyLoader bricks (dense, including edge padding). Corners
are `(easting, northing)` pairs as in `filehandle.corners`. -/
structure Reader where
  n_ilines : Nat
  n_xlines : Nat
  n_samples : Nat
  store : Nat → Nat → Nat → Val
  annotstart0 : Int
  annotstart1 : Int
  annotinc0 : Int
  annotinc1 : Int
  zstart : Val
  zinc : Val
  c0 : Val × Val
  c1 : Val × Val
  c2 : Val × Val
  c3 : Val × Val

/-- `self.tracecount = self.n_xlines * self.n_ilines` (read.py line 22). -/
def Reader.tracecount (r : Reader) : Nat := r.n_xlines * r.n_ilines

/-- `self.ilines = self.get_haxis(0)` (read.py lines 24, 60-63). -/
def Reader.ilines (r : Reader) : List Int := arangeN r.annotstart0 r.annotinc0 r.n_ilines

/-- `self.xlines = self.get_haxis(1)` (read.py lines 25, 60-63). -/
def Reader.xlines (r : Reader) : List Int := arangeN r.annotstart1 r.annotinc1 r.n_xlines

/-- `self.samples = np.arange(zstart, zstart + n_samples*zinc, zinc)`
(read.py lines 27-29). -/
def Reader.samples (r : Reader) : List Val := arangeN r.zstart r.zinc r.n_samples

/-- The concrete scenario of the spec: volume shape (3,4,2), inline
annotations [100,102,104], crossline annotations [10,11,12,13], sample
axis [0,4], corners a unit-increment rectilinear grid from (1000, 2000);
the store content is all zeros. -/
def scenarioReader : Reader where
  n_ilines := 3
  n_xlines := 4
  n_samples := 2
  store := fun _ _ _ => 0
  annotstart0 := 100
  annotstart1 := 10
  annotinc0 := 2
  annotinc1 := 1
  zstart := 0
  zinc := 4
  c0 := (1000, 2000)
  c1 := (1002, 2000)
  c2 := (1000, 2003)
  c3 := (1002, 2003)

/-! ## Lemmas about `firstIndexOf` and the axes -/

theorem firstIndexOf_eq_none {α : Type} [DecidableEq α] (coord : α) (l : List α)
    (h : coord ∉ l) : firstIndexOf coord l = none := by
  induction l with
  | nil => rfl
  | cons c cs ih =>
    have h1 : ¬ c = coord := fun hc => h (hc ▸ List.mem_cons_self c cs)
    have h2 : coord ∉ cs := fun hm => h (List.mem_cons_of_mem c hm)
    simp [firstIndexOf, h1, ih h2]

theorem firstIndexOf_nodup_get {α : Type} [DecidableEq α] (l : List α)
    (hnd : l.Nodup) (i : Nat) (h : i < l.length) :
    firstIndexOf (l.get ⟨i, h⟩) l = some i := by
  induction l generalizing i with
  | nil => exact absurd h (Nat.not_lt_zero i)
  | cons c cs ih =>
    rcases List.nodup_cons.mp hnd with ⟨hc, hcs⟩
    cases i with
    | zero => simp [firstIndexOf]
    | succ j =>
      have hj : j < cs.length := Nat.lt_of_succ_lt_succ h
      have hmem : cs.get ⟨j, hj⟩ ∈ cs := List.get_mem cs j hj
      have hne : c ≠ cs.get ⟨j, hj⟩ := fun he => hc (he ▸ hmem)
      simp only [List.get_cons_succ, firstIndexOf, if_neg hne,
        ih hcs j hj, Option.map_some']

theorem arangeN_length {α : Type} [Ring α] (start inc : α) (n : Nat) :
    (arangeN start inc n).length = n := by
  simp [arangeN]

theorem arangeN_get {α : Type} [Ring α] (start inc : α) (n : Nat) (i : Nat)
    (h : i < (arangeN start inc n).length) :
    (arangeN start inc n).get ⟨i, h⟩ = start + (i : α) * inc := by
  simp [arangeN, List.get_ofFn]

theorem arangeN_nodup {α : Type} [CommRing α] [NoZeroDivisors α] [CharZero α]
    (start inc : α) (n : Nat) (hinc : inc ≠ 0) : (arangeN start inc n).Nodup := by
  apply List.nodup_ofFn_ofInjective
  intro i j hij
  have h2 : ((i : Nat) : α) * inc = ((j : Nat) : α) * inc := add_left_cancel hij
  have h3 : ((i : Nat) : α) = ((j : Nat) : α) := mul_right_cancel₀ hinc h2
  have h4 : (i : Nat) = (j : Nat) := Nat.cast_injective h3
  exact Fin.ext h4

/-! ## C2: round-trip of the coordinate index on every axis -/

theorem coord_to_index_get {α : Type} [DecidableEq α] [Add α] [Sub α]
    (l : List α) (hnd : l.Nodup) (i : Nat) (h : i < l.length) :
    coord_to_index (l.get ⟨i, h⟩) l false = .ok i := by
  simp only [coord_to_index, firstIndexOf_nodup_get l hnd i h]

/-- C2: for every axis (inlines, crosslines, samples) built by the reader
and every ordinal `i` in range, looking the `i`-th annotation coordinate
back up with `coord_to_index` returns exactly `i` (the axes are strictly
monotonic whenever the increments are nonzero, so the first match is `i`). -/
theorem coord_to_index_roundtrip (r : Reader)
    (h0 : r.annotinc0 ≠ 0) (h1 : r.annotinc1 ≠ 0) (hz : r.zinc ≠ 0) :
    (∀ (i : Nat) (h : i < r.ilines.length),
      coord_to_index (r.ilines.get ⟨i, h⟩) r.ilines false = .ok i)
    ∧ (∀ (i : Nat) (h : i < r.xlines.length),
      coord_to_index (r.xlines.get ⟨i, h⟩) r.xlines false = .ok i)
    ∧ (∀ (i : Nat) (h : i < r.samples.length),
      coord_to_index (r.samples.get ⟨i, h⟩) r.samples false = .ok i) := by
  refine ⟨?_, ?_, ?_⟩
  · intro i h
    exact coord_to_index_get _ (arangeN_nodup _ _ _ h0) i h
  · intro i h
    exact coord_to_index_get _ (arangeN_nodup _ _ _ h1) i h
  · intro i h
    exact coord_to_index_get _ (arangeN_nodup _ _ _ hz) i h

/-- C2 witness: in the concrete scenario, annotation 102 (the 1st inline),
crossline 11 and sample 4 each look up to ordinal 1. -/
theorem coord_to_index_roundtrip_witness :
    coord_to_index ((102 : Int)) scenarioReader.ilines false = .ok 1
    ∧ coord_to_index ((11 : Int)) scenarioReader.xlines false = .ok 1
    ∧ coord_to_index ((4 : Val)) scenarioReader.samples false = .ok 1 := by
  have h := coord_to_index_roundtrip scenarioReader
    (by decide) (by decide) (show (4 : Val) ≠ 0 by norm_num)
  have hlen : 1 < scenarioReader.samples.length := by decide
  have h4 : (4 : Val) = scenarioReader.samples.get ⟨1, hlen⟩ := by
    show (4 : Val) =
      (arangeN scenarioReader.zstart scenarioReader.zinc scenarioReader.n_samples).get ⟨1, hlen⟩
    rw [arangeN_get]
    norm_num [scenarioReader]
  refine ⟨h.1 1 (by decide), h.2.1 1 (by decide), ?_⟩
  rw [h4]
  exact h.2.2 1 hlen

/-! ## C3: exact match, one-past-end marker, CoordinateNotFound -/

/-- C3: `coord_to_index` matches exactly, with no interpolation. On a
coordinate absent from the axis (an axis long enough that the negative
indexing `coords[-1]`, `coords[-2]` succeeds): with `include_stop` set and
`coord = last + (last - prev)` (one past the end) it returns the axis
length as an exclusive end marker; for any other absent coordinate, or
with `include_stop` unset, it raises the coordinate-not-found IndexError
rather than returning a value. -/
theorem coord_to_index_exact {α : Type} [DecidableEq α] [Add α] [Sub α]
    (coords : List α) (coord last prev : α)
    (hnot : coord ∉ coords)
    (hlast : npLastMinus coords 1 = some last)
    (hprev : npLastMinus coords 2 = some prev) :
    (coord = last + (last - prev) → coord_to_index coord coords true = .ok coords.length)
    ∧ (coord ≠ last + (last - prev) →
        coord_to_index coord coords true = .error .coordinateNotFound)
    ∧ coord_to_index coord coords false = .error .coordinateNotFound := by
  have hnone := firstIndexOf_eq_none coord coords hnot
  refine ⟨?_, ?_, ?_⟩
  · intro he
    subst he
    simp [coord_to_index, hnone, hlast, hprev]
  · intro hne
    simp [coord_to_index, hnone, hlast, hprev, hne]
  · simp [coord_to_index, hnone]

/-- C3 witness: on the axis [100,102,104], the absent coordinate 106 equals
last + increment, so with `include_stop` it returns the length 3; the
absent coordinate 105 fails with the coordinate-not-found error; without
`include_stop`, 106 also fails. -/
theorem coord_to_index_exact_witness :
    coord_to_index (106 : Int) [100, 102, 104] true = .ok 3
    ∧ coord_to_index (105 : Int) [100, 102, 104] true = .error .coordinateNotFound
    ∧ coord_to_index (106 : Int) [100, 102, 104] false = .error .coordinateNotFound :=
  ⟨(coord_to_index_exact [100, 102, 104] 106 104 102 (by decide) rfl rfl).1 rfl,
   (coord_to_index_exact [100, 102, 104] 105 104 102 (by decide) rfl rfl).2.1 (by decide),
   (coord_to_index_exact [100, 102, 104] 106 104 102 (by decide) rfl rfl).2.2⟩

/-! ## C9: one-past-end lookup on a single-element axis -/

/-- C9: the one-past-end path of `coord_to_index` reads `coords[-2]`, so on
a single-element axis a lookup of any absent coordinate with
`include_stop = true` raises the NumPy out-of-bounds IndexError (from the
`coords[-2]` access) and in particular never returns an ordinal (such
as 1). -/
theorem coord_to_index_singleton_stop (a coord : Int) (h : coord ≠ a) :
    coord_to_index coord [a] true = .error .numpyIndexOutOfBounds
    ∧ ∀ n : Nat, coord_to_index coord [a] true ≠ .ok n := by
  have hac : ¬ a = coord := fun hc => h hc.symm
  have hnone : firstIndexOf coord [a] = none := by
    simp [firstIndexOf, hac]
  have hmain : coord_to_index coord [a] true = .error .numpyIndexOutOfBounds := by
    simp [coord_to_index, hnone, npLastMinus]
  exact ⟨hmain, fun n hn => by rw [hmain] at hn; exact Except.noConfusion hn⟩

/-- C9 witness: on the one-element axis [5], looking up 6 (which would be
one past the end for unit increment) with `include_stop = true` yields the
NumPy out-of-bounds error, not the ordinal 1. -/
theorem coord_to_index_singleton_stop_witness :
    coord_to_index (6 : Int) [5] true = .error .numpyIndexOutOfBounds
    ∧ coord_to_index (6 : Int) [5] true ≠ .ok 1 :=
  ⟨(coord_to_index_singleton_stop 5 6 (by decide)).1,
   (coord_to_index_singleton_stop 5 6 (by decide)).2 1⟩

/-! ## NumPy array model and the brick loader -/

/-- A 1-D NumPy array: length, contents, and whether the storage is owned
(`.copy()`) or a view into a cached buffer. -/
structure Arr1 where
  d0 : Nat
  val : Nat → Val
  owned : Bool

/-- A 2-D NumPy array (see `Arr1` for the `owned` flag). -/
structure Arr2 where
  d0 : Nat
  d1 : Nat
  val : Nat → Nat → Val
  owned : Bool

/-- A 3-D NumPy array (see `Arr1` for the `owned` flag). -/
structure Arr3 where
  d0 : Nat
  d1 : Nat
  d2 : Nat
  val : Nat → Nat → Nat → Val
  owned : Bool

/-- `chunk[a, :, :]`: a 2-D view into a 3-D buffer. -/
def Arr3.planeAt0 (c : Arr3) (a : Nat) : Arr2 :=
  ⟨c.d1, c.d2, fun j k => c.val a j k, false⟩

/-- `chunk[:, b, :]`: a 2-D view into a 3-D buffer. -/
def Arr3.planeAt1 (c : Arr3) (b : Nat) : Arr2 :=
  ⟨c.d0, c.d2, fun i k => c.val i b k, false⟩

/-- `chunk[:, :, cidx]`: a 2-D view into a 3-D buffer. -/
def Arr3.planeAt2 (c : Arr3) (cidx : Nat) : Arr2 :=
  ⟨c.d0, c.d1, fun i j => c.val i j cidx, false⟩

/-- `chunk[a, b, :]`: a 1-D view into a 3-D buffer. -/
def Arr3.traceAt (c : Arr3) (a b : Nat) : Arr1 :=
  ⟨c.d2, fun k => c.val a b k, false⟩

/-- `.copy()` of a 2-D array: same contents, owned storage. -/
def Arr2.copy (p : Arr2) : Arr2 := { p with owned := true }

/-- `.copy()` of a 1-D array: same contents, owned storage. -/
def Arr1.copy (t : Arr1) : Arr1 := { t with owned := true }

/-- Modelled from the spec: `ZgyLoader.load_inline_chunk(origin)` —
loader.py is not among the sources; per spec section 6, the cache loader
`read_aligned_slab(aligned_origin, axis)` returns the dense brick-row slab
(64 inlines from the aligned origin, all crosslines, all samples) of store
content, identical regardless of which query triggered the load. -/
def load_inline_chunk (r : Reader) (origin : Nat) : Arr3 :=
  ⟨64, r.n_xlines, r.n_samples, fun a j k => r.store (origin + a) j k, false⟩

/-- Modelled from the spec: `ZgyLoader.load_crossline_chunk(origin)` — the
brick-column slab (all inlines, 64 crosslines from the aligned origin, all
samples). See `load_inline_chunk`. -/
def load_crossline_chunk (r : Reader) (origin : Nat) : Arr3 :=
  ⟨r.n_ilines, 64, r.n_samples, fun i b k => r.store i (origin + b) k, false⟩

/-- Modelled from the spec: `ZgyLoader.load_zslice_chunk(origin)` — the
brick-layer slab (all inlines, all crosslines, 64 samples from the aligned
origin). See `load_inline_chunk`. -/
def load_zslice_chunk (r : Reader) (origin : Nat) : Arr3 :=
  ⟨r.n_ilines, r.n_xlines, 64, fun i j c => r.store i j (origin + c), false⟩

/-- Modelled from the spec: `ZgyLoader.load_trace_chunk(oi, oj)` — the
brick column at the aligned (inline, crossline) origin spanning the full
sample depth. See `load_inline_chunk`. -/
def load_trace_chunk (r : Reader) (oi oj : Nat) : Arr3 :=
  ⟨64, 64, r.n_samples, fun a b k => r.store (oi + a) (oj + b) k, false⟩

/-! ## The slice readers (read.py lines 65-153) -/

/-- `SeismicReader.read_inline` (read.py line 93):
`self.loader.load_inline_chunk(64*(il_idx//64))[il_idx % 64, :, :].copy()`.
No bounds check is performed on `il_idx`. -/
def read_inline (r : Reader) (il_idx : Nat) : Arr2 :=
  ((load_inline_chunk r (64 * (il_idx / 64))).planeAt0 (il_idx % 64)).copy

/-- `SeismicReader.read_crossline` (read.py line 123):
`self.loader.load_crossline_chunk(64*(xl_idx//64))[:, xl_idx % 64, :].copy()`.
No bounds check is performed on `xl_idx`. -/
def read_crossline (r : Reader) (xl_idx : Nat) : Arr2 :=
  ((load_crossline_chunk r (64 * (xl_idx / 64))).planeAt1 (xl_idx % 64)).copy

/-- `SeismicReader.read_zslice` (read.py line 153):
`self.loader.load_zslice_chunk(64*(z_idx//64))[:, :, z_idx % 64].copy()`.
No bounds check is performed on `z_idx`. -/
def read_zslice (r : Reader) (z_idx : Nat) : Arr2 :=
  ((load_zslice_chunk r (64 * (z_idx / 64))).planeAt2 (z_idx % 64)).copy

/-- `SeismicReader.read_inline_number` (read.py line 78):
`self.read_inline(self.coord_to_index(il_no, self.ilines))`; an exception
from `coord_to_index` propagates. -/
def read_inline_number (r : Reader) (il_no : Int) : Except PyErr Arr2 := do
  let i ← coord_to_index il_no r.ilines false
  return read_inline r i

/-- `SeismicReader.read_crossline_number` (read.py line 108). -/
def read_crossline_number (r : Reader) (xl_no : Int) : Except PyErr Arr2 := do
  let i ← coord_to_index xl_no r.xlines false
  return read_crossline r i

/-- `SeismicReader.read_zslice_coord` (read.py line 138). -/
def read_zslice_coord (r : Reader) (samp_no : Val) : Except PyErr Arr2 := do
  let i ← coord_to_index samp_no r.samples false
  return read_zslice r i

/-- `SeismicReader.read_subvolume` (read.py lines 180-182): allocates a
zero buffer of shape `(max_il-min_il, max_xl-min_xl, max_z-min_z)` and
fills it with `self.filehandle.read((min_il, min_xl, min_z), buf)`.
Modelled from the spec: the openzgy ranged read `read_box(origin, shape)`
is external and returns the dense store content at the origin, so the
buffer cell `(a, b, c)` holds `store (min_il+a) (min_xl+b) (min_z+c)`.
No bounds check is performed on the ranges. -/
def read_subvolume (r : Reader) (min_il max_il min_xl max_xl min_z max_z : Nat) : Arr3 :=
  ⟨max_il - min_il, max_xl - min_xl, max_z - min_z,
   fun a b c => r.store (min_il + a) (min_xl + b) (min_z + c), true⟩

/-- `SeismicReader.get_trace` (read.py lines 209-214): bounds-checks the
flat index against `n_ilines * n_xlines`, splits it as
`il, xl = index // n_xlines, index % n_xlines`, loads the trace-chunk
brick column and extracts `[il % 64, xl % 64, :].copy()`. -/
def get_trace (r : Reader) (index : Nat) : Except PyErr Arr1 :=
  if index < r.n_ilines * r.n_xlines then
    let il := index / r.n_xlines
    let xl := index % r.n_xlines
    .ok (((load_trace_chunk r (64 * (il / 64)) (64 * (xl / 64))).traceAt
      (il % 64) (xl % 64)).copy)
  else
    .error (.indexErrorTrace index (r.n_ilines * r.n_xlines))

/-! ## C4: slice extraction, brick addressing and the defensive copy -/

theorem read_inline_val (r : Reader) (i j k : Nat) :
    (read_inline r i).val j k = r.store i j k := by
  show r.store (64 * (i / 64) + i % 64) j k = r.store i j k
  rw [Nat.div_add_mod]

theorem read_crossline_val (r : Reader) (i j k : Nat) :
    (read_crossline r i).val j k = r.store j i k := by
  show r.store j (64 * (i / 64) + i % 64) k = r.store j i k
  rw [Nat.div_add_mod]

theorem read_zslice_val (r : Reader) (i j k : Nat) :
    (read_zslice r i).val j k = r.store j k i := by
  show r.store j k (64 * (i / 64) + i % 64) = r.store j k i
  rw [Nat.div_add_mod]

/-- C4: for every inline ordinal `i`, `read_inline` extracts the
`(i mod 64)`-th inline plane of the brick-row chunk loaded at the aligned
origin `64*(i div 64)`; the result has shape `(n_xlines, n_samples)`, its
cells are exactly the store's inline `i` (since `64*(i/64) + i%64 = i`),
and it is an owned copy (`owned = true`), so the cached chunk buffer is
never exposed to caller mutation and a later read of the same ordinal is
unaffected. `read_crossline` and `read_zslice` extract symmetrically from
brick-column and brick-layer chunks. -/
theorem read_slices_extract (r : Reader) (i : Nat) :
    (read_inline r i =
      ((load_inline_chunk r (64 * (i / 64))).planeAt0 (i % 64)).copy
      ∧ (read_inline r i).d0 = r.n_xlines ∧ (read_inline r i).d1 = r.n_samples
      ∧ (read_inline r i).owned = true
      ∧ ∀ j k, (read_inline r i).val j k = r.store i j k)
    ∧ (read_crossline r i =
      ((load_crossline_chunk r (64 * (i / 64))).planeAt1 (i % 64)).copy
      ∧ (read_crossline r i).d0 = r.n_ilines ∧ (read_crossline r i).d1 = r.n_samples
      ∧ (read_crossline r i).owned = true
      ∧ ∀ j k, (read_crossline r i).val j k = r.store j i k)
    ∧ (read_zslice r i =
      ((load_zslice_chunk r (64 * (i / 64))).planeAt2 (i % 64)).copy
      ∧ (read_zslice r i).d0 = r.n_ilines ∧ (read_zslice r i).d1 = r.n_xlines
      ∧ (read_zslice r i).owned = true
      ∧ ∀ j k, (read_zslice r i).val j k = r.store j k i) := by
  exact ⟨⟨rfl, rfl, rfl, rfl, read_inline_val r i⟩,
    ⟨rfl, rfl, rfl, rfl, read_crossline_val r i⟩,
    ⟨rfl, rfl, rfl, rfl, read_zslice_val r i⟩⟩

/-! ## C7: cached and direct read paths agree -/

/-- C7: `read_subvolume` bypasses the brick cache with one direct ranged
store read and returns an array of shape
`(max_il-min_il, max_xl-min_xl, max_z-min_z)`; for every inline ordinal
`i` and all `j`, `k`, the cached path `read_inline r i` and the direct
path `read_subvolume r i (i+1) 0 n_xlines 0 n_samples` agree cell by
cell. -/
theorem read_inline_agrees_subvolume (r : Reader) :
    (∀ min_il max_il min_xl max_xl min_z max_z,
      (read_subvolume r min_il max_il min_xl max_xl min_z max_z).d0 = max_il - min_il
      ∧ (read_subvolume r min_il max_il min_xl max_xl min_z max_z).d1 = max_xl - min_xl
      ∧ (read_subvolume r min_il max_il min_xl max_xl min_z max_z).d2 = max_z - min_z)
    ∧ ∀ i j k, (read_inline r i).val j k =
      (read_subvolume r i (i + 1) 0 r.n_xlines 0 r.n_samples).val 0 j k := by
  refine ⟨fun _ _ _ _ _ _ => ⟨rfl, rfl, rfl⟩, fun i j k => ?_⟩
  show (read_inline r i).val j k = r.store (i + 0) (0 + j) (0 + k)
  rw [read_inline_val r i j k, Nat.add_zero, Nat.zero_add, Nat.zero_add]

/-! ## C8: reading by annotation number delegates through the index -/

/-- C8: reading by annotation number translates through `coord_to_index`
and then delegates to reading by ordinal: whenever the annotation
coordinate looks up to ordinal `i`, `read_inline_number` returns exactly
`read_inline` at `i` (and symmetrically for `read_crossline_number` and
`read_zslice_coord`); in the concrete scenario, whose inline axis is
[100, 102, 104], `read_inline_number 102 = read_inline 1`. -/
theorem read_by_number_delegates (r : Reader) :
    (∀ (n : Int) (i : Nat), coord_to_index n r.ilines false = .ok i →
      read_inline_number r n = .ok (read_inline r i))
    ∧ (∀ (n : Int) (i : Nat), coord_to_index n r.xlines false = .ok i →
      read_crossline_number r n = .ok (read_crossline r i))
    ∧ (∀ (s : Val) (i : Nat), coord_to_index s r.samples false = .ok i →
      read_zslice_coord r s = .ok (read_zslice r i))
    ∧ read_inline_number scenarioReader 102 = .ok (read_inline scenarioReader 1) := by
  refine ⟨?_, ?_, ?_, ?_⟩
  · intro n i h
    simp [read_inline_number, h]
  · intro n i h
    simp [read_crossline_number, h]
  · intro s i h
    simp [read_zslice_coord, h]
  · have h102 : coord_to_index (102 : Int) scenarioReader.ilines false = .ok 1 := rfl
    simp [read_inline_number, h102]

/-- C8 witness: in the concrete scenario, the annotation lookups resolve
through the axes and delegate: crossline number 12 is ordinal 2 and sample
coordinate 4 is ordinal 1. -/
theorem read_by_number_delegates_witness :
    read_crossline_number scenarioReader 12 = .ok (read_crossline scenarioReader 2)
    ∧ read_zslice_coord scenarioReader 4 = .ok (read_zslice scenarioReader 1) := by
  have hlen : 1 < scenarioReader.samples.length := by decide
  have h4 : (4 : Val) = scenarioReader.samples.get ⟨1, hlen⟩ := by
    show (4 : Val) =
      (arangeN scenarioReader.zstart scenarioReader.zinc scenarioReader.n_samples).get ⟨1, hlen⟩
    rw [arangeN_get]
    norm_num [scenarioReader]
  have hs4 : coord_to_index (4 : Val) scenarioReader.samples false = .ok 1 := by
    rw [h4]
    exact coord_to_index_get _ (arangeN_nodup _ _ _ (show (4 : Val) ≠ 0 by norm_num)) 1 hlen
  exact ⟨(read_by_number_delegates scenarioReader).2.1 12 2 rfl,
    (read_by_number_delegates scenarioReader).2.2.1 4 1 hs4⟩

/-! ## Geometry projection (read.py lines 36-39, 216-256) -/

/-- `self.easting_inc_il = (corners[1][0] - corners[0][0]) / (size[0] - 1)`
(read.py line 36). Python floats modelled as rationals; the single-inline
case (`size[0] == 1`), where Python would raise ZeroDivisionError, is not
exercised by any theorem below. -/
def Reader.easting_inc_il (r : Reader) : Val := (r.c1.1 - r.c0.1) / ((r.n_ilines : Val) - 1)

/-- `self.northing_inc_il = (corners[1][1] - corners[0][1]) / (size[0] - 1)`
(read.py line 37). -/
def Reader.northing_inc_il (r : Reader) : Val := (r.c1.2 - r.c0.2) / ((r.n_ilines : Val) - 1)

/-- `self.easting_inc_xl = (corners[2][0] - corners[0][0]) / (size[1] - 1)`
(read.py line 38). -/
def Reader.easting_inc_xl (r : Reader) : Val := (r.c2.1 - r.c0.1) / ((r.n_xlines : Val) - 1)

/-- `self.northing_inc_xl = (corners[2][1] - corners[0][1]) / (size[1] - 1)`
(read.py line 39). -/
def Reader.northing_inc_xl (r : Reader) : Val := (r.c2.2 - r.c0.2) / ((r.n_xlines : Val) - 1)

/-- `SeismicReader.gen_cdp_x` (read.py lines 231-235):
`corners[0][0] + il_coord * easting_inc_il + xl_coord * easting_inc_xl`. -/
def gen_cdp_x (r : Reader) (il_coord xl_coord : Nat) : Val :=
  r.c0.1 + (il_coord : Val) * r.easting_inc_il + (xl_coord : Val) * r.easting_inc_xl

/-- `SeismicReader.gen_cdp_y` (read.py lines 252-256):
`corners[0][1] + il_coord * northing_inc_il + xl_coord * northing_inc_xl`. -/
def gen_cdp_y (r : Reader) (il_coord xl_coord : Nat) : Val :=
  r.c0.2 + (il_coord : Val) * r.northing_inc_il + (xl_coord : Val) * r.northing_inc_xl

/-! ## C6: the CDP projection is the finite-difference affine map -/

/-- C6: for every geometry, `gen_cdp_x il xl` (resp. `gen_cdp_y`) equals
the origin corner easting (resp. northing) plus `il` and `xl` multiples of
the per-axis increments obtained by finite differencing between corner
points; in particular `gen_cdp_x 0 0` is exactly the origin corner
easting and `gen_cdp_y 0 0` the origin corner northing, which in the
concrete scenario are exactly 1000 and 2000. -/
theorem gen_cdp_affine :
    (∀ (r : Reader) (il xl : Nat),
      gen_cdp_x r il xl =
        r.c0.1 + (il : Val) * ((r.c1.1 - r.c0.1) / ((r.n_ilines : Val) - 1))
          + (xl : Val) * ((r.c2.1 - r.c0.1) / ((r.n_xlines : Val) - 1))
      ∧ gen_cdp_y r il xl =
        r.c0.2 + (il : Val) * ((r.c1.2 - r.c0.2) / ((r.n_ilines : Val) - 1))
          + (xl : Val) * ((r.c2.2 - r.c0.2) / ((r.n_xlines : Val) - 1)))
    ∧ (∀ r : Reader, gen_cdp_x r 0 0 = r.c0.1 ∧ gen_cdp_y r 0 0 = r.c0.2)
    ∧ gen_cdp_x scenarioReader 0 0 = 1000
    ∧ gen_cdp_y scenarioReader 0 0 = 2000 := by
  have h00 : ∀ r : Reader, gen_cdp_x r 0 0 = r.c0.1 ∧ gen_cdp_y r 0 0 = r.c0.2 := by
    intro r
    constructor
    · show r.c0.1 + ((0 : Nat) : Val) * r.easting_inc_il
        + ((0 : Nat) : Val) * r.easting_inc_xl = r.c0.1
      push_cast
      ring
    · show r.c0.2 + ((0 : Nat) : Val) * r.northing_inc_il
        + ((0 : Nat) : Val) * r.northing_inc_xl = r.c0.2
      push_cast
      ring
  refine ⟨fun r il xl => ⟨rfl, rfl⟩, h00, ?_, ?_⟩
  · rw [(h00 scenarioReader).1]
    rfl
  · rw [(h00 scenarioReader).2]
    rfl

/-! ## struct.pack and the bytearray model (read.py lines 258-293) -/

/-- Big-endian byte list of width `w` for `v` (lowest byte last). -/
def toBytesBE : Nat → Nat → List Nat
  | 0, _ => []
  | w + 1, v => toBytesBE w (v / 256) ++ [v % 256]

/-- `struct.pack(">h", v)`: two big-endian bytes, two's complement. For
in-range `-2^15 ≤ v < 2^15` this is exactly the Python encoding (out of
range, `struct.error` is raised — never exercised here). -/
def pack_h (v : Int) : List Nat := toBytesBE 2 (v % 65536).toNat

/-- `struct.pack(">H", v)`: two big-endian bytes, unsigned; exact for
`0 ≤ v < 2^16`. -/
def pack_H (v : Int) : List Nat := toBytesBE 2 (v % 65536).toNat

/-- `struct.pack(">i", v)`: four big-endian bytes, two's complement; exact
for `-2^31 ≤ v < 2^31`. -/
def pack_i (v : Int) : List Nat := toBytesBE 4 (v % 4294967296).toNat

/-- Python `int(q)`: truncation toward zero. -/
def pyInt (q : Val) : Int := if 0 ≤ q then ⌊q⌋ else -⌊-q⌋

/-- Python 3 `round(q)`: nearest integer, ties to even. -/
def pyRound (q : Val) : Int :=
  if q - ⌊q⌋ < 1 / 2 then ⌊q⌋
  else if 1 / 2 < q - ⌊q⌋ then ⌊q⌋ + 1
  else if ⌊q⌋ % 2 = 0 then ⌊q⌋ else ⌊q⌋ + 1

/-- Python `buf[a:b] = bs` on a bytearray: splice semantics (the length
changes unless `bs.length = b - a`). -/
def setSlice (l : List Nat) (a b : Nat) (bs : List Nat) : List Nat :=
  l.take a ++ bs ++ l.drop b

theorem toBytesBE_length (w v : Nat) : (toBytesBE w v).length = w := by
  induction w generalizing v with
  | zero => rfl
  | succ w ih => simp [toBytesBE, ih]

theorem pack_h_length (v : Int) : (pack_h v).length = 2 := toBytesBE_length 2 _

theorem pack_H_length (v : Int) : (pack_H v).length = 2 := toBytesBE_length 2 _

theorem pack_i_length (v : Int) : (pack_i v).length = 4 := toBytesBE_length 4 _

theorem setSlice_length (l : List Nat) (a b : Nat) (bs : List Nat)
    (hab : a ≤ b) (hbl : b ≤ l.length) (hbs : bs.length = b - a) :
    (setSlice l a b bs).length = l.length := by
  simp only [setSlice, List.length_append, List.length_take, List.length_drop]
  omega

theorem setSlice_getElem? (l : List Nat) (a b : Nat) (bs : List Nat)
    (hab : a ≤ b) (hbl : b ≤ l.length) (hbs : bs.length = b - a) (i : Nat) :
    (setSlice l a b bs)[i]? = if a ≤ i ∧ i < b then bs[i - a]? else l[i]? := by
  have hta : (l.take a).length = a := by
    rw [List.length_take]
    omega
  rw [setSlice, List.append_assoc]
  by_cases h1 : i < a
  · rw [if_neg (by omega), List.getElem?_append_left (by omega),
      List.getElem?_take, if_pos h1]
  · rw [List.getElem?_append_right (by omega), hta]
    by_cases h2 : i < b
    · rw [if_pos ⟨by omega, h2⟩, List.getElem?_append_left (by omega)]
    · rw [if_neg (by omega), List.getElem?_append_right (by omega), hbs,
        List.getElem?_drop]
      congr 1
      omega

theorem setSlice_getD (l : List Nat) (a b : Nat) (bs : List Nat)
    (hab : a ≤ b) (hbl : b ≤ l.length) (hbs : bs.length = b - a) (i : Nat) :
    (setSlice l a b bs).getD i 0 = if a ≤ i ∧ i < b then bs.getD (i - a) 0 else l.getD i 0 := by
  rw [List.getD_eq_getElem?_getD, setSlice_getElem? l a b bs hab hbl hbs i]
  by_cases h : a ≤ i ∧ i < b
  · rw [if_pos h, if_pos h, List.getD_eq_getElem?_getD]
  · rw [if_neg h, if_neg h, List.getD_eq_getElem?_getD]

/-! ## Trace-header synthesis (read.py lines 258-293) -/

/-- The body of `SeismicReader.gen_trace_header` after the bounds check
(read.py lines 276-293): the 240-byte record written into `bytearray(240)`
by the seven slice assignments, in source order:
```
header[70:72]   = struct.pack(">h", -100)
header[180:184] = struct.pack(">i", cdp_x)
header[184:188] = struct.pack(">i", cdp_y)
header[188:192] = struct.pack(">i", inline_3d)
header[192:196] = struct.pack(">i", crossline_3d)
header[114:116] = struct.pack(">H", self.n_samples)
header[116:118] = struct.pack(">H", int(self.zinc * 1000))
```
with `cdp_x = int(round(100.0 * gen_cdp_x(il, xl)))` (likewise `cdp_y`),
`inline_3d = int(annotstart[0] + il * annotinc[0])` and
`crossline_3d = int(annotstart[1] + xl * annotinc[1])`. The final
`segyio.segy.Field(header, kind='trace')` wrapper is external; we model
the underlying byte record it wraps. -/
def build_header (r : Reader) (il_coord xl_coord : Nat) : List Nat :=
  setSlice
    (setSlice
      (setSlice
        (setSlice
          (setSlice
            (setSlice
              (setSlice (List.replicate 240 0) 70 72 (pack_h (-100)))
              180 184 (pack_i (pyRound (100 * gen_cdp_x r il_coord xl_coord))))
            184 188 (pack_i (pyRound (100 * gen_cdp_y r il_coord xl_coord))))
          188 192 (pack_i (r.annotstart0 + (il_coord : Int) * r.annotinc0)))
        192 196 (pack_i (r.annotstart1 + (xl_coord : Int) * r.annotinc1)))
      114 116 (pack_H (r.n_samples : Int)))
    116 118 (pack_H (pyInt (r.zinc * 1000)))

/-- `SeismicReader.gen_trace_header` (read.py lines 258-293). The
out-of-range branch executes
`raise IndexError(self.range_error.format(index, 0, self.tracecount))`,
but `self.range_error` is never assigned anywhere in the class, so
evaluating it raises `AttributeError` before any IndexError can be
constructed. In range, the flat index is split
`xl, il = index % n_xlines, index // n_xlines` and the record is built. -/
def gen_trace_header (r : Reader) (index : Nat) : Except PyErr (List Nat) :=
  if index < r.n_ilines * r.n_xlines then
    .ok (build_header r (index / r.n_xlines) (index % r.n_xlines))
  else
    .error .attributeError

/-- The byte ranges of the populated header fields: scale factor 70:72,
sample count and interval 114:118, CDP X/Y and inline/crossline 180:196. -/
def inHeaderRanges (i : Nat) : Prop :=
  (70 ≤ i ∧ i < 72) ∨ (114 ≤ i ∧ i < 118) ∨ (180 ≤ i ∧ i < 196)

instance (i : Nat) : Decidable (inHeaderRanges i) := by
  unfold inHeaderRanges
  infer_instance

theorem setSlice_length240 (l : List Nat) (a b : Nat) (bs : List Nat)
    (hl : l.length = 240) (hab : a ≤ b) (hb : b ≤ 240) (hbs : bs.length = b - a) :
    (setSlice l a b bs).length = 240 := by
  rw [setSlice_length l a b bs hab (by omega) hbs, hl]

theorem build_header_length (r : Reader) (il xl : Nat) :
    (build_header r il xl).length = 240 := by
  unfold build_header
  refine setSlice_length240 _ _ _ _ ?_ (by omega) (by omega) (pack_H_length _)
  refine setSlice_length240 _ _ _ _ ?_ (by omega) (by omega) (pack_H_length _)
  refine setSlice_length240 _ _ _ _ ?_ (by omega) (by omega) (pack_i_length _)
  refine setSlice_length240 _ _ _ _ ?_ (by omega) (by omega) (pack_i_length _)
  refine setSlice_length240 _ _ _ _ ?_ (by omega) (by omega) (pack_i_length _)
  refine setSlice_length240 _ _ _ _ ?_ (by omega) (by omega) (pack_i_length _)
  refine setSlice_length240 _ _ _ _ ?_ (by omega) (by omega) (pack_h_length _)
  exact List.length_replicate 240 0

theorem replicate240_getD (i : Nat) : (List.replicate 240 (0 : Nat)).getD i 0 = 0 := by
  rw [List.getD_eq_getElem?_getD, List.getElem?_replicate]
  split <;> rfl

/-- Pointwise characterisation of the header record: each byte is the
corresponding byte of the field written over it, and every byte outside
the written ranges is the structural zero of `bytearray(240)`. -/
theorem build_header_getD (r : Reader) (il xl : Nat) (i : Nat) :
    (build_header r il xl).getD i 0 =
      if 116 ≤ i ∧ i < 118 then (pack_H (pyInt (r.zinc * 1000))).getD (i - 116) 0
      else if 114 ≤ i ∧ i < 116 then (pack_H (r.n_samples : Int)).getD (i - 114) 0
      else if 192 ≤ i ∧ i < 196 then
        (pack_i (r.annotstart1 + (xl : Int) * r.annotinc1)).getD (i - 192) 0
      else if 188 ≤ i ∧ i < 192 then
        (pack_i (r.annotstart0 + (il : Int) * r.annotinc0)).getD (i - 188) 0
      else if 184 ≤ i ∧ i < 188 then
        (pack_i (pyRound (100 * gen_cdp_y r il xl))).getD (i - 184) 0
      else if 180 ≤ i ∧ i < 184 then
        (pack_i (pyRound (100 * gen_cdp_x r il xl))).getD (i - 180) 0
      else if 70 ≤ i ∧ i < 72 then (pack_h (-100)).getD (i - 70) 0
      else 0 := by
  have L0 : (List.replicate 240 (0 : Nat)).length = 240 := List.length_replicate 240 0
  have L1 := setSlice_length240 _ 70 72 (pack_h (-100)) L0 (by omega) (by omega)
    (pack_h_length _)
  have L2 := setSlice_length240 _ 180 184
    (pack_i (pyRound (100 * gen_cdp_x r il xl))) L1 (by omega) (by omega) (pack_i_length _)
  have L3 := setSlice_length240 _ 184 188
    (pack_i (pyRound (100 * gen_cdp_y r il xl))) L2 (by omega) (by omega) (pack_i_length _)
  have L4 := setSlice_length240 _ 188 192
    (pack_i (r.annotstart0 + (il : Int) * r.annotinc0)) L3 (by omega) (by omega)
    (pack_i_length _)
  have L5 := setSlice_length240 _ 192 196
    (pack_i (r.annotstart1 + (xl : Int) * r.annotinc1)) L4 (by omega) (by omega)
    (pack_i_length _)
  have L6 := setSlice_length240 _ 114 116 (pack_H (r.n_samples : Int)) L5 (by omega)
    (by omega) (pack_H_length _)
  unfold build_header
  rw [setSlice_getD _ 116 118 _ (by omega) (by rw [L6]; omega) (pack_H_length _),
      setSlice_getD _ 114 116 _ (by omega) (by rw [L5]; omega) (pack_H_length _),
      setSlice_getD _ 192 196 _ (by omega) (by rw [L4]; omega) (pack_i_length _),
      setSlice_getD _ 188 192 _ (by omega) (by rw [L3]; omega) (pack_i_length _),
      setSlice_getD _ 184 188 _ (by omega) (by rw [L2]; omega) (pack_i_length _),
      setSlice_getD _ 180 184 _ (by omega) (by rw [L1]; omega) (pack_i_length _),
      setSlice_getD _ 70 72 _ (by omega) (by rw [L0]; omega) (pack_h_length _),
      replicate240_getD]

/-! ## C5: the synthesized trace header layout -/

/-- C5: for every in-range trace ordinal, `gen_trace_header` produces the
240-byte record in which only the declared field ranges are populated:
the coordinate scale factor -100 at 70:72, the sample count at 114:116,
the sample interval `int(zinc*1000)` at 116:118, CDP X and CDP Y (the
geometric coordinates scaled by 100 and rounded) at 180:184 and 184:188,
and the inline and crossline annotation numbers at 188:192 and 192:196;
every byte outside those ranges is zero, for every reader and ordinal, so
the populated-field set never expands. -/
theorem gen_trace_header_layout (r : Reader) (index : Nat)
    (h : index < r.n_ilines * r.n_xlines) :
    gen_trace_header r index =
      .ok (build_header r (index / r.n_xlines) (index % r.n_xlines))
    ∧ (build_header r (index / r.n_xlines) (index % r.n_xlines)).length = 240
    ∧ (∀ i : Nat, ¬ inHeaderRanges i →
        (build_header r (index / r.n_xlines) (index % r.n_xlines)).getD i 0 = 0)
    ∧ (∀ i : Nat, i < 2 →
        (build_header r (index / r.n_xlines) (index % r.n_xlines)).getD (70 + i) 0 =
          (pack_h (-100)).getD i 0)
    ∧ (∀ i : Nat, i < 2 →
        (build_header r (index / r.n_xlines) (index % r.n_xlines)).getD (114 + i) 0 =
          (pack_H (r.n_samples : Int)).getD i 0)
    ∧ (∀ i : Nat, i < 2 →
        (build_header r (index / r.n_xlines) (index % r.n_xlines)).getD (116 + i) 0 =
          (pack_H (pyInt (r.zinc * 1000))).getD i 0)
    ∧ (∀ i : Nat, i < 4 →
        (build_header r (index / r.n_xlines) (index % r.n_xlines)).getD (180 + i) 0 =
          (pack_i (pyRound (100 *
            gen_cdp_x r (index / r.n_xlines) (index % r.n_xlines)))).getD i 0)
    ∧ (∀ i : Nat, i < 4 →
        (build_header r (index / r.n_xlines) (index % r.n_xlines)).getD (184 + i) 0 =
          (pack_i (pyRound (100 *
            gen_cdp_y r (index / r.n_xlines) (index % r.n_xlines)))).getD i 0)
    ∧ (∀ i : Nat, i < 4 →
        (build_header r (index / r.n_xlines) (index % r.n_xlines)).getD (188 + i) 0 =
          (pack_i (r.annotstart0 + ((index / r.n_xlines : Nat) : Int) *
            r.annotinc0)).getD i 0)
    ∧ (∀ i : Nat, i < 4 →
        (build_header r (index / r.n_xlines) (index % r.n_xlines)).getD (192 + i) 0 =
          (pack_i (r.annotstart1 + ((index % r.n_xlines : Nat) : Int) *
            r.annotinc1)).getD i 0) := by
  refine ⟨by rw [gen_trace_header, if_pos h], build_header_length r _ _,
    ?_, ?_, ?_, ?_, ?_, ?_, ?_, ?_⟩
  · intro i hni
    simp only [inHeaderRanges, not_or] at hni
    rw [build_header_getD, if_neg (by omega), if_neg (by omega), if_neg (by omega),
      if_neg (by omega), if_neg (by omega), if_neg (by omega), if_neg (by omega)]
  · intro i hi
    rw [build_header_getD, if_neg (by omega), if_neg (by omega), if_neg (by omega),
      if_neg (by omega), if_neg (by omega), if_neg (by omega), if_pos (by omega),
      Nat.add_sub_cancel_left]
  · intro i hi
    rw [build_header_getD, if_neg (by omega), if_pos (by omega), Nat.add_sub_cancel_left]
  · intro i hi
    rw [build_header_getD, if_pos (by omega), Nat.add_sub_cancel_left]
  · intro i hi
    rw [build_header_getD, if_neg (by omega), if_neg (by omega), if_neg (by omega),
      if_neg (by omega), if_neg (by omega), if_pos (by omega), Nat.add_sub_cancel_left]
  · intro i hi
    rw [build_header_getD, if_neg (by omega), if_neg (by omega), if_neg (by omega),
      if_neg (by omega), if_pos (by omega), Nat.add_sub_cancel_left]
  · intro i hi
    rw [build_header_getD, if_neg (by omega), if_neg (by omega), if_neg (by omega),
      if_pos (by omega), Nat.add_sub_cancel_left]
  · intro i hi
    rw [build_header_getD, if_neg (by omega), if_neg (by omega), if_pos (by omega),
      Nat.add_sub_cancel_left]

/-- C5 witness: at the in-range trace ordinal 0 of the concrete scenario,
the header is produced, has length 240, byte 0 (outside every declared
range) is zero, and byte 70 is the first byte of the packed scale
factor. -/
theorem gen_trace_header_layout_witness :
    gen_trace_header scenarioReader 0 = .ok (build_header scenarioReader 0 0)
    ∧ (build_header scenarioReader 0 0).length = 240
    ∧ (build_header scenarioReader 0 0).getD 0 0 = 0
    ∧ (build_header scenarioReader 0 0).getD 70 0 = (pack_h (-100)).getD 0 0 := by
  have h := gen_trace_header_layout scenarioReader 0 (by decide)
  exact ⟨h.1, h.2.1, h.2.2.1 0 (by decide), h.2.2.2.1 0 (by omega)⟩

/-! ## C10: flat trace indexing is crossline-fastest -/

/-- C10: `get_trace` and `gen_trace_header` interpret the flat trace index
in crossline-fastest order: the total trace count is
`n_ilines * n_xlines`, and an in-range index addresses inline
`index / n_xlines` and crossline `index % n_xlines`; `get_trace` returns
the owned trace holding all `n_samples` samples of that (inline,
crossline) pair, and `gen_trace_header` builds the record for the same
pair. -/
theorem get_trace_order (r : Reader) (index : Nat)
    (h : index < r.n_ilines * r.n_xlines) :
    r.tracecount = r.n_ilines * r.n_xlines
    ∧ (get_trace r index).map Arr1.d0 = .ok r.n_samples
    ∧ (get_trace r index).map Arr1.owned = .ok true
    ∧ (∀ k, (get_trace r index).map (fun t => t.val k) =
        .ok (r.store (index / r.n_xlines) (index % r.n_xlines) k))
    ∧ gen_trace_header r index =
        .ok (build_header r (index / r.n_xlines) (index % r.n_xlines)) := by
  refine ⟨Nat.mul_comm _ _, ?_, ?_, ?_, by rw [gen_trace_header, if_pos h]⟩
  · rw [get_trace, if_pos h]
    rfl
  · rw [get_trace, if_pos h]
    rfl
  · intro k
    rw [get_trace, if_pos h]
    show Except.ok (r.store (64 * (index / r.n_xlines / 64) + index / r.n_xlines % 64)
      (64 * (index % r.n_xlines / 64) + index % r.n_xlines % 64) k) = _
    rw [Nat.div_add_mod, Nat.div_add_mod]

/-- C10 witness: in the 3×4 scenario, the trace count is 12 and flat index
5 addresses inline 1, crossline 1. -/
theorem get_trace_order_witness :
    scenarioReader.tracecount = scenarioReader.n_ilines * scenarioReader.n_xlines
    ∧ (get_trace scenarioReader 5).map Arr1.owned = .ok true
    ∧ (get_trace scenarioReader 5).map (fun t => t.val 0) =
        .ok (scenarioReader.store (5 / scenarioReader.n_xlines)
          (5 % scenarioReader.n_xlines) 0) := by
  have h := get_trace_order scenarioReader 5 (by decide)
  exact ⟨h.1, h.2.2.1, h.2.2.2.1 0⟩

/-! ## C1: the bounds-checking policy — corrected -/

/-- C1 counterexample: the claim that every read operation rejects an
out-of-range ordinal with an IndexOutOfRange error naming the axis, the
value and the valid range is false at concrete inputs. In the 3×4×2
scenario, `gen_trace_header` at the one-past-the-end flat index 12 fails
with AttributeError (its out-of-range branch evaluates the undefined
attribute `self.range_error`), not with a descriptive IndexError; and
`read_inline` at ordinal 3 == n_ilines performs no check at all — it
silently returns an ordinary owned plane (of brick padding) instead of
failing. -/
theorem bounds_checks_counterexample :
    gen_trace_header scenarioReader 12 = .error .attributeError
    ∧ (read_inline scenarioReader 3).owned = true
    ∧ (read_inline scenarioReader 3).val 0 0 = 0 :=
  ⟨rfl, rfl, rfl⟩

/-- C1 amended: only `get_trace` and `gen_trace_header` bounds-check their
input, and only against the flat trace range. `get_trace` raises an
IndexError naming the requested index and the total trace count (not an
axis or a half-open range); `gen_trace_header` instead raises
AttributeError, because its raise statement evaluates `self.range_error`,
which is never defined. The slice readers (`read_inline`,
`read_crossline`, `read_zslice`) and `read_subvolume` perform no bounds
check whatsoever: they are total, returning whatever the store serves at
the requested ordinal (brick padding past the survey edge). -/
theorem bounds_checks_amended (r : Reader) (index : Nat)
    (h : r.n_ilines * r.n_xlines ≤ index) :
    get_trace r index = .error (.indexErrorTrace index (r.n_ilines * r.n_xlines))
    ∧ gen_trace_header r index = .error .attributeError
    ∧ (∀ i j k, (read_inline r i).val j k = r.store i j k)
    ∧ (∀ i j k, (read_crossline r i).val j k = r.store j i k)
    ∧ (∀ i j k, (read_zslice r i).val j k = r.store j k i) := by
  refine ⟨?_, ?_, read_inline_val r, read_crossline_val r, read_zslice_val r⟩
  · rw [get_trace, if_neg (Nat.not_lt.mpr h)]
  · rw [gen_trace_header, if_neg (Nat.not_lt.mpr h)]

/-- C1 amended witness: at flat index 12 == tracecount of the scenario,
`get_trace` raises the index IndexError and `gen_trace_header` the
AttributeError. -/
theorem bounds_checks_amended_witness :
    get_trace scenarioReader 12 = .error (.indexErrorTrace 12 12)
    ∧ gen_trace_header scenarioReader 12 = .error .attributeError := by
  have h := bounds_checks_amended scenarioReader 12 (by decide)
  exact ⟨h.1, h.2.1⟩

end PyZgy
